import Mathlib

/-!
Shallow embedding of the `mcp-svelte-docs` repository:
the `OpenAIRetrieval` class of `src/openai-retrieval-fixed.ts` and the
`Svelte5DocsServer.handleSearchDocumentation` tool handler of the server
entry point.

The TypeScript code is asynchronous and stateful; we embed it as pure
functions with explicit state passing.  Every outbound network call is
answered by an `Env` record (the environment fixes, for one run, the
outcome of each provider call), and each function additionally returns
the ordered list of network calls it issued, so that claims about
"zero network calls" or "no create/upload request" are statements about
that trace.  JavaScript exceptions become `Except McpError`; the class
fields `vectorStoreId` and `initialized` become the record `RState`
(field `ready` models the `initialized` flag, since we avoid that
identifier in Lean).
-/

/-- JavaScript-ish values, used for loosely-typed tool arguments
(`args.query`, `args.limit`).  `undefined` stands both for the value
`undefined` and for an absent property. -/
inductive JSVal where
  | str (s : String)
  | num (n : Int)
  | bool (b : Bool)
  | null
  | undefined
deriving DecidableEq, Repr

/-- JavaScript truthiness for the values we model
(`""`, `0`, `false`, `null`, `undefined` are falsy). -/
def JSVal.truthy : JSVal → Bool
  | .str s => !(s == "")
  | .num n => !(n == 0)
  | .bool b => b
  | .null => false
  | .undefined => false

/-- `typeof v === 'string'`. -/
def JSVal.isStr : JSVal → Bool
  | .str _ => true
  | _ => false

/-- The string payload of a `JSVal`; only used under an `isStr` guard. -/
def JSVal.asStr : JSVal → String
  | .str s => s
  | _ => ""

/-- MCP error codes used by the sources (`@modelcontextprotocol/sdk`). -/
inductive ErrorCode where
  | InvalidParams
  | InternalError
  | MethodNotFound
deriving DecidableEq, Repr

/-- `McpError` as thrown by the sources: an error code plus a message. -/
structure McpError where
  code : ErrorCode
  message : String
deriving DecidableEq, Repr

/-- The shape of a JavaScript error inspected by the catch blocks:
`error.status` (OpenAI SDK errors), `error.response?.status` (axios
errors), and the provider's error text (`error.message`, assumed
truthy, which also stands in for the stringification used by
`error.message || error`). -/
structure JsError where
  status : Option Nat
  respStatus : Option Nat
  message : String
deriving DecidableEq, Repr

/-- A vector store as returned by `GET /v1/vector_stores`. -/
structure VectorStore where
  id : String
  name : String
deriving DecidableEq, Repr

/-- One search hit of the provider's search response.  `contentTexts`
models `result.content` (an array of objects whose `text` fields get
joined), `text` models `result.text`, and `score` is the already
rendered score string (`result.score ? result.score.toFixed(2) : 'N/A'`
is floating point, which we keep opaque as a string). -/
structure SearchResult where
  contentTexts : Option (List String)
  text : Option String
  score : Option String
deriving DecidableEq, Repr

/-- The provider's search response body; `data` is `none` when the
`data` field is missing. -/
structure SearchResponse where
  data : Option (List SearchResult)
deriving DecidableEq, Repr

/-- A file entry of `GET /v1/vector_stores/:id/files`. -/
structure VSFile where
  id : String
  filename : Option String
  name : Option String
deriving DecidableEq, Repr

/-- The provider's file-listing response body. -/
structure FilesResponse where
  data : Option (List VSFile)
deriving DecidableEq, Repr

/-- The body of the `POST /v1/vector_stores/:id/search` request issued
by `OpenAIRetrieval.search`. -/
structure SearchRequest where
  query : String
  max_num_results : JSVal
  rewrite_query : Bool
deriving DecidableEq, Repr

/-- The outbound network calls the sources can issue, in the order the
code issues them.  `vectorStoreSearch` records the request body so that
claims about the forwarded `max_num_results` are statements about the
trace. -/
inductive NetCall where
  | modelsList
  | vectorStoresGet
  | vectorStoresCreate
  | docsDownload
  | fileUpload
  | vectorStoreAddFile
  | vectorStoreSearch (req : SearchRequest)
  | vectorStoreFilesGet
deriving DecidableEq, Repr

/-- The environment of one run: the outcome of each provider call.
`GET /v1/vector_stores` is issued twice during initialization (once by
`checkRetrievalApiAccess`, once to obtain the listing), so those two
calls get separate outcomes. -/
structure Env where
  modelsList : Except JsError Unit
  accessCheck : Except JsError Unit
  listStores : Except JsError (List VectorStore)
  createStore : Except JsError String
  docsDownload : Except JsError String
  fileUpload : Except JsError String
  addFileToStore : Except JsError Unit
  searchCall : Except JsError SearchResponse
  listFilesCall : Except JsError FilesResponse

/-- The mutable fields of the `OpenAIRetrieval` instance:
`vectorStoreId` and the `initialized` flag (named `ready` here). -/
structure RState where
  vectorStoreId : Option String
  ready : Bool
deriving DecidableEq, Repr

/-- `const VECTOR_STORE_NAME = 'svelte5-documentation'`. -/
def VECTOR_STORE_NAME : String := "svelte5-documentation"

/-- The invalid-API-key message shared by several catch blocks. -/
def invalidKeyMsg : String :=
  "Invalid OpenAI API key. Please check your API key and try again."

/-- The 403 message of `validateApiKey`. -/
def permApiMsg : String :=
  "Your OpenAI account does not have permission to use this API. Please check your account permissions."

/-- The 403 message of `checkRetrievalApiAccess`. -/
def permRetrievalMsg : String :=
  "Your OpenAI account does not have permission to use the Retrieval API. This feature may require a specific account tier or beta access."

/-- The catch block of `OpenAIRetrieval.validateApiKey`
(inspects `error.status`). -/
def validateApiKeyErr (e : JsError) : McpError :=
  if e.status = some 401 then
    ⟨.InvalidParams, invalidKeyMsg⟩
  else if e.status = some 403 then
    ⟨.InvalidParams, permApiMsg⟩
  else
    ⟨.InternalError, "Failed to validate OpenAI API key: " ++ e.message⟩

/-- The catch block of `OpenAIRetrieval.checkRetrievalApiAccess`
(inspects `error.response?.status`). -/
def accessCheckErr (e : JsError) : McpError :=
  if e.respStatus = some 401 then
    ⟨.InvalidParams, invalidKeyMsg⟩
  else if e.respStatus = some 403 then
    ⟨.InvalidParams, permRetrievalMsg⟩
  else if e.respStatus = some 404 then
    ⟨.InvalidParams, "The Retrieval API endpoint was not found. This feature may not be available yet for your account or is in beta."⟩
  else
    ⟨.InternalError, "Failed to access Retrieval API: " ++ e.message⟩

/-- The inner catch block of `downloadAndProcessDocs` around the file
upload and the add-to-store call. -/
def uploadErr (e : JsError) : McpError :=
  if e.respStatus = some 401 then
    ⟨.InvalidParams, "Your OpenAI API key does not have access to the Files API or Retrieval API."⟩
  else
    ⟨.InternalError, "Failed to process documentation: " ++ e.message⟩

/-- The catch block of `OpenAIRetrieval.search`
(note: no 403 branch). -/
def searchErr (e : JsError) : McpError :=
  if e.respStatus = some 401 then
    ⟨.InvalidParams, invalidKeyMsg⟩
  else if e.respStatus = some 404 then
    ⟨.InternalError, "Vector store not found. It may have been deleted or is not accessible."⟩
  else
    ⟨.InternalError, "Search failed: " ++ e.message⟩

/-- The catch block of `OpenAIRetrieval.listFiles`
(note: no 403 branch). -/
def listFilesErr (e : JsError) : McpError :=
  if e.respStatus = some 401 then
    ⟨.InvalidParams, invalidKeyMsg⟩
  else if e.respStatus = some 404 then
    ⟨.InternalError, "Vector store not found. It may have been deleted or is not accessible."⟩
  else
    ⟨.InternalError, "Failed to list files: " ++ e.message⟩

/-- The outer catch of `initialize` wrapping a non-`McpError` failure
(here: the unguarded vector-store listing or creation call). -/
def initWrapErr (e : JsError) : McpError :=
  ⟨.InternalError, "Failed to initialize OpenAI vector store: " ++ e.message⟩

/-- `OpenAIRetrieval.downloadAndProcessDocs`: download the docs from
`DOCS_URL`, upload the file to `POST /v1/files`, then attach it to the
vector store.  Returns the outcome and the network calls issued.  All
failures are surfaced as `McpError`, so the outer catch (which rethrows
`McpError` unchanged) is the identity here.  The local temp-file
handling is filesystem glue and not modelled. -/
def downloadAndProcessDocs (env : Env) (s : RState) :
    Except McpError Unit × List NetCall :=
  match s.vectorStoreId with
  | none => (.error ⟨.InternalError, "Vector store ID not available"⟩, [])
  | some _ =>
    match env.docsDownload with
    | .error e =>
        (.error ⟨.InternalError, "Failed to download documentation: " ++ e.message⟩,
         [.docsDownload])
    | .ok _ =>
      match env.fileUpload with
      | .error e => (.error (uploadErr e), [.docsDownload, .fileUpload])
      | .ok _ =>
        match env.addFileToStore with
        | .error e =>
            (.error (uploadErr e),
             [.docsDownload, .fileUpload, .vectorStoreAddFile])
        | .ok _ =>
            (.ok (), [.docsDownload, .fileUpload, .vectorStoreAddFile])

/-- `OpenAIRetrieval.initialize` (named `initStore` in this
development): short-circuit when already initialized; otherwise
validate the key, probe Retrieval-API access, list the vector stores,
adopt an existing store named `VECTOR_STORE_NAME` or create and
populate a new one, and set the `initialized` flag (`ready`) only at
the very end.  Returns the outcome, the resulting state, and the trace
of network calls. -/
def initStore (env : Env) (s : RState) :
    Except McpError Unit × RState × List NetCall :=
  if s.ready then (.ok (), s, [])
  else
    match env.modelsList with
    | .error e => (.error (validateApiKeyErr e), s, [.modelsList])
    | .ok _ =>
      match env.accessCheck with
      | .error e =>
          (.error (accessCheckErr e), s, [.modelsList, .vectorStoresGet])
      | .ok _ =>
        match env.listStores with
        | .error e =>
            (.error (initWrapErr e), s,
             [.modelsList, .vectorStoresGet, .vectorStoresGet])
        | .ok stores =>
          match stores.find? (fun st => st.name == VECTOR_STORE_NAME) with
          | some st =>
              (.ok (), ⟨some st.id, true⟩,
               [.modelsList, .vectorStoresGet, .vectorStoresGet])
          | none =>
            match env.createStore with
            | .error e =>
                (.error (initWrapErr e), s,
                 [.modelsList, .vectorStoresGet, .vectorStoresGet,
                  .vectorStoresCreate])
            | .ok newId =>
              let s1 : RState := ⟨some newId, false⟩
              match downloadAndProcessDocs env s1 with
              | (.error e, calls) =>
                  (.error e, s1,
                   [.modelsList, .vectorStoresGet, .vectorStoresGet,
                    .vectorStoresCreate] ++ calls)
              | (.ok _, calls) =>
                  (.ok (), ⟨some newId, true⟩,
                   [.modelsList, .vectorStoresGet, .vectorStoresGet,
                    .vectorStoresCreate] ++ calls)

/-- `OpenAIRetrieval.search`: lazily initialize when the flag is not
set, require a vector-store id, then issue the search request with
`max_num_results` set to the given limit and `rewrite_query: true`.
The limit is a `JSVal` because the JavaScript caller forwards
`args.limit || 5` without a type check. -/
def searchVS (env : Env) (s : RState) (query : String) (limit : JSVal) :
    Except McpError SearchResponse × RState × List NetCall :=
  let st := if s.ready then (.ok (), s, []) else initStore env s
  match st with
  | (.error e, s1, calls) => (.error e, s1, calls)
  | (.ok _, s1, calls) =>
    match s1.vectorStoreId with
    | none =>
        (.error ⟨.InternalError, "Vector store not initialized"⟩, s1, calls)
    | some _ =>
      match env.searchCall with
      | .error e =>
          (.error (searchErr e), s1,
           calls ++ [.vectorStoreSearch ⟨query, limit, true⟩])
      | .ok resp =>
          (.ok resp, s1,
           calls ++ [.vectorStoreSearch ⟨query, limit, true⟩])

/-- `OpenAIRetrieval.listFiles`: lazily initialize, require a
vector-store id, then list the files of the store. -/
def listFilesVS (env : Env) (s : RState) :
    Except McpError FilesResponse × RState × List NetCall :=
  let st := if s.ready then (.ok (), s, []) else initStore env s
  match st with
  | (.error e, s1, calls) => (.error e, s1, calls)
  | (.ok _, s1, calls) =>
    match s1.vectorStoreId with
    | none =>
        (.error ⟨.InternalError, "Vector store not initialized"⟩, s1, calls)
    | some _ =>
      match env.listFilesCall with
      | .error e =>
          (.error (listFilesErr e), s1, calls ++ [.vectorStoreFilesGet])
      | .ok resp => (.ok resp, s1, calls ++ [.vectorStoreFilesGet])

/-- The arguments object of a tool call; `none` models an absent
property (which JavaScript reads as `undefined`). -/
structure Args where
  query : Option JSVal
  limit : Option JSVal
deriving DecidableEq, Repr

/-- A tool response: the text of the single content block and the
`isError` flag (absent flag = `false`). -/
structure ToolResponse where
  text : String
  isError : Bool
deriving DecidableEq, Repr

/-- `JSON.stringify(result)` fallback of the result formatter, kept
opaque as a deterministic rendering of the modelled fields. -/
def stringifyResult (r : SearchResult) : String :=
  "\x7b\"score\": " ++ (r.score.getD "null") ++ "\x7d"

/-- The per-result formatter of `handleSearchDocumentation`: join the
`content[].text` fields when `content` is an array, else use a truthy
`result.text`, else `JSON.stringify`; label with the 1-based index and
the rendered score (`'N/A'` when the score is falsy). -/
def formatResult (idx : Nat) (r : SearchResult) : String :=
  let content :=
    match r.contentTexts with
    | some cs => String.intercalate "\n" cs
    | none =>
      match r.text with
      | some t => if t == "" then stringifyResult r else t
      | none => stringifyResult r
  let score := r.score.getD "N/A"
  "Result " ++ toString (idx + 1) ++ " (Score: " ++ score ++ "):\n" ++
    content ++ "\n"

/-- `const limit = args.limit || 5`. -/
def effectiveLimit (l : Option JSVal) : JSVal :=
  let v := l.getD JSVal.undefined
  if v.truthy then v else JSVal.num 5

/-- `Svelte5DocsServer.handleSearchDocumentation`: reject a missing,
non-string or empty `query` with an `InvalidParams` protocol error
before any network call; otherwise run the search, mapping zero results
to a fixed message, formatting the hits otherwise, and catching every
failure as a textual payload with the `isError` flag set (all failures
the embedding surfaces are `McpError`, so the `instanceof McpError`
branch of the catch is the one modelled). -/
def handleSearchDocumentation (env : Env) (s : RState) (args : Args) :
    Except McpError ToolResponse × RState × List NetCall :=
  let q := args.query.getD JSVal.undefined
  if !q.truthy || !q.isStr then
    (.error ⟨.InvalidParams, "Query is required"⟩, s, [])
  else
    let limit := effectiveLimit args.limit
    match searchVS env s q.asStr limit with
    | (.error e, s1, calls) =>
        (.ok ⟨"Search failed: " ++ e.message, true⟩, s1, calls)
    | (.ok resp, s1, calls) =>
      match resp.data with
      | none =>
          (.ok ⟨"No results found in Svelte 5 documentation.", false⟩,
           s1, calls)
      | some [] =>
          (.ok ⟨"No results found in Svelte 5 documentation.", false⟩,
           s1, calls)
      | some results =>
        let formatted :=
          String.intercalate "\n---\n"
            (results.enum.map (fun p => formatResult p.1 p.2))
        (.ok ⟨"Search results for \"" ++ q.asStr ++ "\":\n\n" ++ formatted,
              false⟩,
         s1, calls)

/-! Concrete environments used by the witnesses below. -/

/-- All provider calls succeed and the listing already contains the
well-known store. -/
def envAdopt : Env :=
  ⟨.ok (), .ok (), .ok [⟨"vs_123", VECTOR_STORE_NAME⟩], .ok "vs_new",
   .ok "docs text", .ok "file_1", .ok (), .ok ⟨some []⟩, .ok ⟨some []⟩⟩

/-- All provider calls succeed and the listing is empty, so the create
path runs. -/
def envCreateOk : Env :=
  ⟨.ok (), .ok (), .ok [], .ok "vs_new", .ok "docs text", .ok "file_1",
   .ok (), .ok ⟨some []⟩, .ok ⟨some []⟩⟩

/-- Empty listing and a failing documentation download. -/
def envDlFail : Env :=
  ⟨.ok (), .ok (), .ok [], .ok "vs_new",
   .error ⟨none, none, "network unreachable"⟩, .ok "file_1", .ok (),
   .ok ⟨some []⟩, .ok ⟨some []⟩⟩

/-- A listing that now contains the store created by a failed earlier
run. -/
def envRetryAdopt : Env :=
  ⟨.ok (), .ok (), .ok [⟨"vs_new", VECTOR_STORE_NAME⟩], .ok "vs_other",
   .ok "docs text", .ok "file_1", .ok (), .ok ⟨some []⟩, .ok ⟨some []⟩⟩

/-- The very first provider call (the key validation) fails. -/
def envValidateFail : Env :=
  ⟨.error ⟨none, none, "boom"⟩, .ok (), .ok [], .ok "vs_new",
   .ok "docs text", .ok "file_1", .ok (), .ok ⟨some []⟩, .ok ⟨some []⟩⟩

/-- A search call answered with HTTP 403. -/
def envSearch403 : Env :=
  ⟨.ok (), .ok (), .ok [⟨"vs_123", VECTOR_STORE_NAME⟩], .ok "vs_new",
   .ok "docs text", .ok "file_1", .ok (),
   .error ⟨none, some 403, "boom"⟩, .ok ⟨some []⟩⟩

/-- C1: when the `initialized` flag is already set, `initialize()`
returns immediately with no network call and leaves the state (in
particular the vector-store handle) unchanged. -/
theorem C1_init_idempotent (env : Env) (s : RState) (h : s.ready = true) :
    initStore env s = (.ok (), s, []) := by
  simp [initStore, h]

theorem C1_init_idempotent_witness :
    (⟨some "vs_123", true⟩ : RState).ready = true ∧
    initStore envAdopt ⟨some "vs_123", true⟩ =
      (.ok (), ⟨some "vs_123", true⟩, []) :=
  ⟨rfl, C1_init_idempotent envAdopt ⟨some "vs_123", true⟩ rfl⟩

/-- C2: when the provider's listing contains a store named
`svelte5-documentation`, `initialize()` adopts the id of the first such
store, succeeds, and issues neither a create request nor any
download/upload of the documentation. -/
theorem C2_adopt_existing (env : Env) (s : RState)
    (stores : List VectorStore) (st : VectorStore)
    (hready : s.ready = false)
    (hm : env.modelsList = .ok ())
    (ha : env.accessCheck = .ok ())
    (hl : env.listStores = .ok stores)
    (hf : stores.find? (fun x => x.name == VECTOR_STORE_NAME) = some st) :
    initStore env s = (.ok (), ⟨some st.id, true⟩,
      [.modelsList, .vectorStoresGet, .vectorStoresGet]) ∧
    NetCall.vectorStoresCreate ∉ (initStore env s).2.2 ∧
    NetCall.docsDownload ∉ (initStore env s).2.2 ∧
    NetCall.fileUpload ∉ (initStore env s).2.2 ∧
    NetCall.vectorStoreAddFile ∉ (initStore env s).2.2 := by
  simp [initStore, hready, hm, ha, hl, hf]

theorem C2_adopt_existing_witness :
    (envAdopt.listStores = .ok [⟨"vs_123", VECTOR_STORE_NAME⟩]) ∧
    initStore envAdopt ⟨none, false⟩ = (.ok (), ⟨some "vs_123", true⟩,
      [.modelsList, .vectorStoresGet, .vectorStoresGet]) :=
  ⟨rfl,
   (C2_adopt_existing envAdopt ⟨none, false⟩
      [⟨"vs_123", VECTOR_STORE_NAME⟩] ⟨"vs_123", VECTOR_STORE_NAME⟩
      rfl rfl rfl rfl (by decide)).1⟩

/-- C3: when no store carries the well-known name, `initialize()`
creates one, downloads the documentation, uploads it (file upload plus
attach-to-store), and sets the `initialized` flag only when every step
succeeded; whichever step fails first surfaces an error and leaves the
flag unset. -/
theorem C3_create_path (env : Env) (s : RState) (stores : List VectorStore)
    (hready : s.ready = false)
    (hm : env.modelsList = .ok ())
    (ha : env.accessCheck = .ok ())
    (hl : env.listStores = .ok stores)
    (hf : stores.find? (fun x => x.name == VECTOR_STORE_NAME) = none) :
    (∀ nid doc fid, env.createStore = .ok nid → env.docsDownload = .ok doc →
        env.fileUpload = .ok fid → env.addFileToStore = .ok () →
        initStore env s = (.ok (), ⟨some nid, true⟩,
          [.modelsList, .vectorStoresGet, .vectorStoresGet,
           .vectorStoresCreate, .docsDownload, .fileUpload,
           .vectorStoreAddFile])) ∧
    (∀ e, env.createStore = .error e →
        (initStore env s).1 = .error (initWrapErr e) ∧
        (initStore env s).2.1.ready = false) ∧
    (∀ nid e, env.createStore = .ok nid → env.docsDownload = .error e →
        (initStore env s).1 = .error
          ⟨.InternalError, "Failed to download documentation: " ++ e.message⟩ ∧
        (initStore env s).2.1.ready = false) ∧
    (∀ nid doc e, env.createStore = .ok nid → env.docsDownload = .ok doc →
        env.fileUpload = .error e →
        (initStore env s).1 = .error (uploadErr e) ∧
        (initStore env s).2.1.ready = false) ∧
    (∀ nid doc fid e, env.createStore = .ok nid → env.docsDownload = .ok doc →
        env.fileUpload = .ok fid → env.addFileToStore = .error e →
        (initStore env s).1 = .error (uploadErr e) ∧
        (initStore env s).2.1.ready = false) := by
  refine ⟨?_, ?_, ?_, ?_, ?_⟩
  · intro nid doc fid hc hd hu hat
    simp [initStore, downloadAndProcessDocs, hready, hm, ha, hl, hf, hc, hd,
      hu, hat]
  · intro e hc
    simp [initStore, hready, hm, ha, hl, hf, hc]
  · intro nid e hc hd
    simp [initStore, downloadAndProcessDocs, hready, hm, ha, hl, hf, hc, hd]
  · intro nid doc e hc hd hu
    simp [initStore, downloadAndProcessDocs, hready, hm, ha, hl, hf, hc, hd, hu]
  · intro nid doc fid e hc hd hu hat
    simp [initStore, downloadAndProcessDocs, hready, hm, ha, hl, hf, hc, hd,
      hu, hat]

theorem C3_create_path_witness :
    (envCreateOk.listStores = .ok []) ∧
    initStore envCreateOk ⟨none, false⟩ = (.ok (), ⟨some "vs_new", true⟩,
      [.modelsList, .vectorStoresGet, .vectorStoresGet, .vectorStoresCreate,
       .docsDownload, .fileUpload, .vectorStoreAddFile]) :=
  ⟨rfl,
   (C3_create_path envCreateOk ⟨none, false⟩ [] rfl rfl rfl rfl rfl).1
     "vs_new" "docs text" "file_1" rfl rfl rfl rfl⟩

/-- C10: when `initialize()` creates a store and the populate step
(here: the documentation download) fails, the `vectorStoreId` field
keeps the freshly created id while the `initialized` flag stays false;
a later retry whose listing now contains that store adopts it without
any populate call, and the failure path did not restore the pre-call
state when the handle was previously unset. -/
theorem C10_failed_populate_keeps_handle (env1 env2 : Env) (s : RState)
    (stores1 stores2 : List VectorStore) (nid : String) (e : JsError)
    (hready : s.ready = false)
    (hm1 : env1.modelsList = .ok ()) (ha1 : env1.accessCheck = .ok ())
    (hl1 : env1.listStores = .ok stores1)
    (hf1 : stores1.find? (fun x => x.name == VECTOR_STORE_NAME) = none)
    (hc1 : env1.createStore = .ok nid)
    (hd1 : env1.docsDownload = .error e)
    (hm2 : env2.modelsList = .ok ()) (ha2 : env2.accessCheck = .ok ())
    (hl2 : env2.listStores = .ok stores2)
    (hf2 : stores2.find? (fun x => x.name == VECTOR_STORE_NAME)
             = some ⟨nid, VECTOR_STORE_NAME⟩) :
    initStore env1 s = (.error
        ⟨.InternalError, "Failed to download documentation: " ++ e.message⟩,
      ⟨some nid, false⟩,
      [.modelsList, .vectorStoresGet, .vectorStoresGet, .vectorStoresCreate,
       .docsDownload]) ∧
    initStore env2 ⟨some nid, false⟩ = (.ok (), ⟨some nid, true⟩,
      [.modelsList, .vectorStoresGet, .vectorStoresGet]) ∧
    NetCall.docsDownload ∉ (initStore env2 ⟨some nid, false⟩).2.2 ∧
    NetCall.fileUpload ∉ (initStore env2 ⟨some nid, false⟩).2.2 ∧
    NetCall.vectorStoreAddFile ∉ (initStore env2 ⟨some nid, false⟩).2.2 ∧
    (s.vectorStoreId = none → (initStore env1 s).2.1 ≠ s) := by
  have h1 : initStore env1 s = (.error
      ⟨.InternalError, "Failed to download documentation: " ++ e.message⟩,
      ⟨some nid, false⟩,
      [.modelsList, .vectorStoresGet, .vectorStoresGet, .vectorStoresCreate,
       .docsDownload]) := by
    simp [initStore, downloadAndProcessDocs, hready, hm1, ha1, hl1, hf1,
      hc1, hd1]
  refine ⟨h1, ?_, ?_, ?_, ?_, ?_⟩
  · simp [initStore, hm2, ha2, hl2, hf2]
  · simp [initStore, hm2, ha2, hl2, hf2]
  · simp [initStore, hm2, ha2, hl2, hf2]
  · simp [initStore, hm2, ha2, hl2, hf2]
  · intro hnone hcontra
    rw [h1] at hcontra
    simp only at hcontra
    rw [← hcontra] at hnone
    simp at hnone

theorem C10_failed_populate_keeps_handle_witness :
    (envDlFail.docsDownload = .error ⟨none, none, "network unreachable"⟩) ∧
    initStore envDlFail ⟨none, false⟩ = (.error
        ⟨.InternalError,
         "Failed to download documentation: network unreachable"⟩,
      ⟨some "vs_new", false⟩,
      [.modelsList, .vectorStoresGet, .vectorStoresGet, .vectorStoresCreate,
       .docsDownload]) ∧
    initStore envRetryAdopt ⟨some "vs_new", false⟩ =
      (.ok (), ⟨some "vs_new", true⟩,
       [.modelsList, .vectorStoresGet, .vectorStoresGet]) :=
  ⟨rfl,
   (C10_failed_populate_keeps_handle envDlFail envRetryAdopt ⟨none, false⟩
      [] [⟨"vs_new", VECTOR_STORE_NAME⟩] "vs_new"
      ⟨none, none, "network unreachable"⟩
      rfl rfl rfl rfl rfl rfl rfl rfl rfl rfl (by decide)).1,
   (C10_failed_populate_keeps_handle envDlFail envRetryAdopt ⟨none, false⟩
      [] [⟨"vs_new", VECTOR_STORE_NAME⟩] "vs_new"
      ⟨none, none, "network unreachable"⟩
      rfl rfl rfl rfl rfl rfl rfl rfl rfl rfl (by decide)).2.1⟩

/-- C4 (counterexample): a provider 403 on the search operation does
NOT yield a permission message — it falls into the generic
"Search failed: ..." branch with code `InternalError`, because
`OpenAIRetrieval.search` has no 403 case.  The final conjuncts check
that the produced message differs from both permission messages the
program can ever produce. -/
theorem C4_search_403_no_permission_message :
    searchVS envSearch403 ⟨some "vs_123", true⟩ "runes" (.num 5) =
      (.error ⟨.InternalError, "Search failed: boom"⟩,
       ⟨some "vs_123", true⟩,
       [.vectorStoreSearch ⟨"runes", .num 5, true⟩]) ∧
    (searchVS envSearch403 ⟨some "vs_123", true⟩ "runes" (.num 5)).1 ≠
      .error ⟨.InvalidParams, permApiMsg⟩ ∧
    (searchVS envSearch403 ⟨some "vs_123", true⟩ "runes" (.num 5)).1 ≠
      .error ⟨.InvalidParams, permRetrievalMsg⟩ ∧
    "Search failed: boom" ≠ permApiMsg ∧
    "Search failed: boom" ≠ permRetrievalMsg := by
  refine ⟨?_, ?_, ?_, by decide, by decide⟩ <;>
    simp [searchVS, envSearch403, searchErr, permApiMsg, permRetrievalMsg,
      McpError.mk.injEq]

/-- C4 (amended): the exact error mapping of the five mapped provider
call sites.  A 401 yields the invalid-API-key message in
`validateApiKey`, `checkRetrievalApiAccess`, `search` and `listFiles`,
and a no-access message in the upload step; a 403 yields a permission
message only in `validateApiKey` and `checkRetrievalApiAccess` (in
`search`, `listFiles` and the upload step it falls into the generic
branch); a 404 yields the beta-unavailable message in
`checkRetrievalApiAccess` and the not-found message in `search` and
`listFiles`; every other failure yields a generic message embedding the
provider's own error text. -/
theorem C4_error_mapping_exact (e : JsError) :
    (e.status = some 401 →
       validateApiKeyErr e = ⟨.InvalidParams, invalidKeyMsg⟩) ∧
    (e.status = some 403 →
       validateApiKeyErr e = ⟨.InvalidParams, permApiMsg⟩) ∧
    (e.status ≠ some 401 → e.status ≠ some 403 →
       validateApiKeyErr e =
         ⟨.InternalError, "Failed to validate OpenAI API key: " ++ e.message⟩) ∧
    (e.respStatus = some 401 →
       accessCheckErr e = ⟨.InvalidParams, invalidKeyMsg⟩) ∧
    (e.respStatus = some 403 →
       accessCheckErr e = ⟨.InvalidParams, permRetrievalMsg⟩) ∧
    (e.respStatus = some 404 →
       accessCheckErr e = ⟨.InvalidParams, "The Retrieval API endpoint was not found. This feature may not be available yet for your account or is in beta."⟩) ∧
    (e.respStatus ≠ some 401 → e.respStatus ≠ some 403 →
       e.respStatus ≠ some 404 →
       accessCheckErr e =
         ⟨.InternalError, "Failed to access Retrieval API: " ++ e.message⟩) ∧
    (e.respStatus = some 401 →
       uploadErr e = ⟨.InvalidParams, "Your OpenAI API key does not have access to the Files API or Retrieval API."⟩) ∧
    (e.respStatus ≠ some 401 →
       uploadErr e =
         ⟨.InternalError, "Failed to process documentation: " ++ e.message⟩) ∧
    (e.respStatus = some 401 →
       searchErr e = ⟨.InvalidParams, invalidKeyMsg⟩) ∧
    (e.respStatus = some 404 →
       searchErr e = ⟨.InternalError, "Vector store not found. It may have been deleted or is not accessible."⟩) ∧
    (e.respStatus ≠ some 401 → e.respStatus ≠ some 404 →
       searchErr e = ⟨.InternalError, "Search failed: " ++ e.message⟩) ∧
    (e.respStatus = some 401 →
       listFilesErr e = ⟨.InvalidParams, invalidKeyMsg⟩) ∧
    (e.respStatus = some 404 →
       listFilesErr e = ⟨.InternalError, "Vector store not found. It may have been deleted or is not accessible."⟩) ∧
    (e.respStatus ≠ some 401 → e.respStatus ≠ some 404 →
       listFilesErr e = ⟨.InternalError, "Failed to list files: " ++ e.message⟩) := by
  refine ⟨?_, ?_, ?_, ?_, ?_, ?_, ?_, ?_, ?_, ?_, ?_, ?_, ?_, ?_, ?_⟩ <;>
    intros <;>
    simp_all [validateApiKeyErr, accessCheckErr, uploadErr, searchErr,
      listFilesErr]

theorem C4_error_mapping_exact_witness :
    ((⟨none, some 500, "boom"⟩ : JsError).respStatus ≠ some 401) ∧
    searchErr ⟨none, some 500, "boom"⟩ =
      ⟨.InternalError, "Search failed: boom"⟩ :=
  ⟨by decide,
   (C4_error_mapping_exact ⟨none, some 500, "boom"⟩).2.2.2.2.2.2.2.2.2.2.2.1
     (by decide) (by decide)⟩

/-- C5: a `search_svelte_docs` call whose `query` argument is missing,
not a string, or falsy (in particular the empty string) fails with an
`InvalidParams` protocol error and an empty network trace, i.e. before
any network call. -/
theorem C5_invalid_query_rejected (env : Env) (s : RState) (args : Args)
    (h : (args.query.getD JSVal.undefined).truthy = false ∨
         (args.query.getD JSVal.undefined).isStr = false) :
    handleSearchDocumentation env s args =
      (.error ⟨.InvalidParams, "Query is required"⟩, s, []) := by
  unfold handleSearchDocumentation
  rcases h with h | h <;> simp [h]

theorem C5_invalid_query_rejected_witness :
    ((Args.mk none none).query.getD JSVal.undefined).truthy = false ∧
    handleSearchDocumentation envAdopt ⟨none, false⟩ ⟨none, none⟩ =
      (.error ⟨.InvalidParams, "Query is required"⟩, ⟨none, false⟩, []) :=
  ⟨rfl,
   C5_invalid_query_rejected envAdopt ⟨none, false⟩ ⟨none, none⟩ (.inl rfl)⟩

/-- C6: the effective limit is 5 when the `limit` argument is omitted
or falsy (in particular `0`) and the provided value otherwise, and the
handler forwards exactly that value to the provider as
`max_num_results` of the search request. -/
theorem C6_limit_default_and_forwarding :
    effectiveLimit none = JSVal.num 5 ∧
    (∀ v : JSVal, v.truthy = false → effectiveLimit (some v) = JSVal.num 5) ∧
    (∀ v : JSVal, v.truthy = true → effectiveLimit (some v) = v) ∧
    (∀ (env : Env) (s : RState) (args : Args) (qs : String),
       args.query = some (JSVal.str qs) → qs ≠ "" →
       s.ready = true → ∀ sid, s.vectorStoreId = some sid →
       (handleSearchDocumentation env s args).2.2 =
         [NetCall.vectorStoreSearch ⟨qs, effectiveLimit args.limit, true⟩]) := by
  refine ⟨rfl, ?_, ?_, ?_⟩
  · intro v hv; simp [effectiveLimit, hv]
  · intro v hv; simp [effectiveLimit, hv]
  · intro env s args qs hq hqs hready sid hid
    unfold handleSearchDocumentation
    rcases hsc : env.searchCall with e | resp <;>
      simp [searchVS, hq, hqs, hready, hid, hsc, JSVal.truthy, JSVal.isStr,
        JSVal.asStr]
    rcases resp.data with _ | ⟨_ | ⟨r, rs⟩⟩ <;> simp

theorem C6_limit_default_and_forwarding_witness :
    (JSVal.num 0).truthy = false ∧
    effectiveLimit (some (JSVal.num 0)) = JSVal.num 5 ∧
    (handleSearchDocumentation envAdopt ⟨some "vs_123", true⟩
        ⟨some (JSVal.str "runes"), some (JSVal.num 3)⟩).2.2 =
      [NetCall.vectorStoreSearch
        ⟨"runes", effectiveLimit (some (JSVal.num 3)), true⟩] :=
  ⟨rfl,
   C6_limit_default_and_forwarding.2.1 (JSVal.num 0) rfl,
   C6_limit_default_and_forwarding.2.2.2 envAdopt ⟨some "vs_123", true⟩
     ⟨some (JSVal.str "runes"), some (JSVal.num 3)⟩ "runes"
     rfl (by decide) rfl "vs_123" rfl⟩

/-- C8: when the provider's search response carries no results (a
missing or empty `data` array), the handler returns the fixed
no-results text with the error flag unset, rather than an empty list or
an error. -/
theorem C8_zero_results_fixed_text (env : Env) (s : RState) (args : Args)
    (qs : String) (sid : String) (resp : SearchResponse)
    (hq : args.query = some (JSVal.str qs)) (hqs : qs ≠ "")
    (hready : s.ready = true) (hid : s.vectorStoreId = some sid)
    (hsc : env.searchCall = .ok resp)
    (hdata : resp.data = none ∨ resp.data = some []) :
    (handleSearchDocumentation env s args).1 =
      .ok ⟨"No results found in Svelte 5 documentation.", false⟩ := by
  unfold handleSearchDocumentation
  rcases hdata with hd | hd <;>
    simp [searchVS, hq, hqs, hready, hid, hsc, hd, JSVal.truthy, JSVal.isStr,
      JSVal.asStr]

theorem C8_zero_results_fixed_text_witness :
    (envAdopt.searchCall = .ok ⟨some []⟩) ∧
    (handleSearchDocumentation envAdopt ⟨some "vs_123", true⟩
        ⟨some (JSVal.str "runes"), none⟩).1 =
      .ok ⟨"No results found in Svelte 5 documentation.", false⟩ :=
  ⟨rfl,
   C8_zero_results_fixed_text envAdopt ⟨some "vs_123", true⟩
     ⟨some (JSVal.str "runes"), none⟩ "runes" "vs_123" ⟨some []⟩
     rfl (by decide) rfl rfl rfl (.inr rfl)⟩

/-- C7: once the query validates, the handler never surfaces an
exception: its result is always a protocol-level success, a search
failure is turned into a textual payload with the `isError` flag set,
and only a malformed query yields a protocol error. -/
theorem C7_no_throw_past_boundary (env : Env) (s : RState) (args : Args) :
    (∀ qs : String, args.query = some (JSVal.str qs) → qs ≠ "" →
       ∃ r : ToolResponse,
         (handleSearchDocumentation env s args).1 = .ok r) ∧
    (∀ (qs : String) (e : McpError) (s1 : RState) (calls : List NetCall),
       args.query = some (JSVal.str qs) → qs ≠ "" →
       searchVS env s qs (effectiveLimit args.limit) = (.error e, s1, calls) →
       (handleSearchDocumentation env s args).1 =
         .ok ⟨"Search failed: " ++ e.message, true⟩) ∧
    ((args.query.getD JSVal.undefined).truthy = false ∨
       (args.query.getD JSVal.undefined).isStr = false →
       (handleSearchDocumentation env s args).1 =
         .error ⟨.InvalidParams, "Query is required"⟩) := by
  refine ⟨?_, ?_, ?_⟩
  · intro qs hq hqs
    have ht : (JSVal.str qs).truthy = true := by simp [JSVal.truthy, hqs]
    unfold handleSearchDocumentation
    rcases hs : searchVS env s qs (effectiveLimit args.limit)
      with ⟨res, s1, calls⟩
    rcases res with e | resp
    · simp [hq, ht, JSVal.isStr, JSVal.asStr, hs]
    · rcases resp with ⟨data⟩
      rcases data with _ | (_ | ⟨r, rs⟩) <;>
        simp [hq, ht, JSVal.isStr, JSVal.asStr, hs]
  · intro qs e s1 calls hq hqs hs
    have ht : (JSVal.str qs).truthy = true := by simp [JSVal.truthy, hqs]
    unfold handleSearchDocumentation
    simp [hq, ht, JSVal.isStr, JSVal.asStr, hs]
  · intro h
    unfold handleSearchDocumentation
    rcases h with h | h <;> simp [h]

theorem C7_no_throw_past_boundary_witness :
    searchVS envSearch403 ⟨some "vs_123", true⟩ "runes"
        (effectiveLimit none) =
      (.error ⟨.InternalError, "Search failed: boom"⟩,
       ⟨some "vs_123", true⟩,
       [.vectorStoreSearch ⟨"runes", effectiveLimit none, true⟩]) ∧
    (handleSearchDocumentation envSearch403 ⟨some "vs_123", true⟩
        ⟨some (JSVal.str "runes"), none⟩).1 =
      .ok ⟨"Search failed: Search failed: boom", true⟩ :=
  ⟨rfl,
   (C7_no_throw_past_boundary envSearch403 ⟨some "vs_123", true⟩
      ⟨some (JSVal.str "runes"), none⟩).2.1 "runes"
     ⟨.InternalError, "Search failed: boom"⟩ ⟨some "vs_123", true⟩
     [.vectorStoreSearch ⟨"runes", effectiveLimit none, true⟩]
     rfl (by decide) rfl⟩

/-- On the not-yet-initialized path, the `initialized` flag is set
after `initialize()` exactly when the run succeeded; in particular any
failing run leaves it unset. -/
lemma initStore_ready_iff (env : Env) (s : RState) (hready : s.ready = false) :
    (initStore env s).2.1.ready = true ↔ (initStore env s).1 = .ok () := by
  rcases hml : env.modelsList with e1 | u1
  · simp [initStore, hready, hml]
  · rcases hac : env.accessCheck with e2 | u2
    · simp [initStore, hready, hml, hac]
    · rcases hls : env.listStores with e3 | stores
      · simp [initStore, hready, hml, hac, hls]
      · rcases hf : stores.find? (fun st => st.name == VECTOR_STORE_NAME)
          with _ | st
        · rcases hc : env.createStore with e4 | nid
          · simp [initStore, hready, hml, hac, hls, hf, hc]
          · rcases hd : downloadAndProcessDocs env ⟨some nid, false⟩
              with ⟨r, calls⟩
            rcases r with e5 | u5 <;>
              simp [initStore, hready, hml, hac, hls, hf, hc, hd]
        · simp [initStore, hready, hml, hac, hls, hf]

/-- C9 (counterexample): when initialization fails during a
`search_svelte_docs` call (here the very first provider call answers
with a network error), the handler does NOT propagate a protocol-level
error: it returns a successful protocol response whose text carries the
failure and whose `isError` flag is set. -/
theorem C9_init_error_not_protocol_error :
    handleSearchDocumentation envValidateFail ⟨none, false⟩
        ⟨some (JSVal.str "runes"), none⟩ =
      (.ok ⟨"Search failed: Failed to validate OpenAI API key: boom", true⟩,
       ⟨none, false⟩, [.modelsList]) ∧
    ∀ e : McpError,
      (handleSearchDocumentation envValidateFail ⟨none, false⟩
          ⟨some (JSVal.str "runes"), none⟩).1 ≠ .error e := by
  have h : handleSearchDocumentation envValidateFail ⟨none, false⟩
      ⟨some (JSVal.str "runes"), none⟩ =
      (.ok ⟨"Search failed: Failed to validate OpenAI API key: boom", true⟩,
       ⟨none, false⟩, [.modelsList]) := by rfl
  refine ⟨h, ?_⟩
  intro e he
  rw [h] at he
  simp at he

/-- C9 (amended): when initialization fails during a tool call, the
handler catches the error and returns it as a textual payload with the
`isError` flag set (a protocol-level success), and the `initialized`
flag stays unset, so the next tool call re-runs initialization from
scratch. -/
theorem C9_init_error_caught_and_retryable (env : Env) (s : RState)
    (args : Args) (qs : String) (e : McpError) (s1 : RState)
    (calls : List NetCall)
    (hready : s.ready = false)
    (hq : args.query = some (JSVal.str qs)) (hqs : qs ≠ "")
    (hinit : initStore env s = (.error e, s1, calls)) :
    handleSearchDocumentation env s args =
      (.ok ⟨"Search failed: " ++ e.message, true⟩, s1, calls) ∧
    s1.ready = false := by
  constructor
  · have ht : (JSVal.str qs).truthy = true := by simp [JSVal.truthy, hqs]
    unfold handleSearchDocumentation searchVS
    simp [hq, ht, JSVal.isStr, JSVal.asStr, hready, hinit]
  · have hiff := initStore_ready_iff env s hready
    rw [hinit] at hiff
    simpa using hiff

theorem C9_init_error_caught_and_retryable_witness :
    initStore envValidateFail ⟨none, false⟩ =
      (.error (validateApiKeyErr ⟨none, none, "boom"⟩), ⟨none, false⟩,
       [.modelsList]) ∧
    handleSearchDocumentation envValidateFail ⟨none, false⟩
        ⟨some (JSVal.str "runes"), none⟩ =
      (.ok ⟨"Search failed: " ++
          (validateApiKeyErr ⟨none, none, "boom"⟩).message, true⟩,
       ⟨none, false⟩, [.modelsList]) ∧
    (⟨none, false⟩ : RState).ready = false :=
  ⟨rfl,
   (C9_init_error_caught_and_retryable envValidateFail ⟨none, false⟩
      ⟨some (JSVal.str "runes"), none⟩ "runes"
      (validateApiKeyErr ⟨none, none, "boom"⟩) ⟨none, false⟩ [.modelsList]
      rfl rfl (by decide) rfl).1,
   (C9_init_error_caught_and_retryable envValidateFail ⟨none, false⟩
      ⟨some (JSVal.str "runes"), none⟩ "runes"
      (validateApiKeyErr ⟨none, none, "boom"⟩) ⟨none, false⟩ [.modelsList]
      rfl rfl (by decide) rfl).2⟩
